import Mathlib

/-!
Verification of the Property Matcher listings relay.

The relay is a single-endpoint HTTP proxy: it routes a configured target
identifier to an upstream runs URL by prefix, builds a prompt and a
variables payload from the inbound search criteria, forwards one request
upstream, and maps upstream failures back to its caller.  This file embeds
that logic shallowly: Python values that can appear in the JSON payloads
become the inductive type `PyVal`, `json.dumps` with default separators and
unicode passthrough becomes `PyVal.dumps`, the environment snapshot becomes
the structure `Config`, and the request handler `run_listings_agent`
becomes a pure function from the configuration, the inbound header, the
parsed body and an upstream oracle to a relay result paired with the list
of upstream requests actually issued.
-/

namespace PropertyMatcher

/-- Python values occurring in the relay's JSON payloads.  Dict entries keep
insertion order, as Python dicts do. -/
inductive PyVal where
  | none : PyVal
  | bool (b : Bool) : PyVal
  | int (n : Int) : PyVal
  | str (s : String) : PyVal
  | list (xs : List PyVal) : PyVal
  | dict (kvs : List (String × PyVal)) : PyVal

/-- Lower-case hexadecimal digit, as used by Python json escapes. -/
def hexDigit (n : Nat) : Char :=
  if n < 10 then Char.ofNat (48 + n) else Char.ofNat (87 + n)

/-- Escaping of a single character inside a JSON string literal, following
Python json.dumps with ensure_ascii set to False: quote, backslash and the
named control characters get two-character escapes, remaining control
characters below 0x20 get a \u00xx escape, and every other character (all
non-ASCII included) passes through unchanged. -/
def jsonEscapeChar (c : Char) : String :=
  if c = '"' then "\\\""
  else if c = '\\' then "\\\\"
  else if c = '\n' then "\\n"
  else if c = '\t' then "\\t"
  else if c = '\r' then "\\r"
  else if c = Char.ofNat 8 then "\\b"
  else if c = Char.ofNat 12 then "\\f"
  else if c.toNat < 32 then
    "\\u00" ++ String.singleton (hexDigit (c.toNat / 16)) ++
      String.singleton (hexDigit (c.toNat % 16))
  else String.singleton c

/-- A JSON string literal for `s`, following Python json.dumps with
ensure_ascii set to False. -/
def jsonQuote (s : String) : String :=
  "\"" ++ String.join (s.data.map jsonEscapeChar) ++ "\""

mutual

/-- Serialization of a `PyVal`, following Python json.dumps with the default
separators (a comma-space between items, a colon-space after keys) and
ensure_ascii set to False. -/
def PyVal.dumps : PyVal → String
  | PyVal.none => "null"
  | PyVal.bool b => if b then "true" else "false"
  | PyVal.int n => toString n
  | PyVal.str s => jsonQuote s
  | PyVal.list xs => "[" ++ dumpsList xs ++ "]"
  | PyVal.dict kvs => "\x7b" ++ dumpsKVs kvs ++ "\x7d"

/-- Comma-space separated serialization of JSON array elements. -/
def dumpsList : List PyVal → String
  | [] => ""
  | [v] => PyVal.dumps v
  | v :: vs => PyVal.dumps v ++ ", " ++ dumpsList vs

/-- Comma-space separated serialization of JSON object entries. -/
def dumpsKVs : List (String × PyVal) → String
  | [] => ""
  | [(k, v)] => jsonQuote k ++ ": " ++ PyVal.dumps v
  | (k, v) :: kvs => jsonQuote k ++ ": " ++ PyVal.dumps v ++ ", " ++ dumpsKVs kvs

end

/-- Substring containment: the character sequence of `sub` occurs
contiguously inside the character sequence of `s`. -/
abbrev strContains (s sub : String) : Prop := sub.data <:+: s.data

/-- Python str.startswith on whole strings: the characters of `pre` are a
prefix of the characters of `s`. -/
def pyStartswith (s pre : String) : Bool := pre.data.isPrefixOf s.data

/-- The process environment snapshot read at startup (module-level globals
in the source).  Unset variables are the empty string, exactly as
os.getenv with an empty-string default produces. -/
structure Config where
  OPENAI_API_KEY : String
  LISTINGS_AGENT_ID : String
  PUBLIC_CALLER_KEY : String
  OPENAI_BASE : String
  OPENAI_PROJECT : String
  OPENAI_ORG : String

/-- The Criteria pydantic model: every field optional, property_types
defaulting to the empty list and the rest to None. -/
structure Criteria where
  location : Option String := Option.none
  min_price : Option Int := Option.none
  max_price : Option Int := Option.none
  beds_min : Option Int := Option.none
  baths_min : Option Int := Option.none
  property_types : Option (List String) := some []
  keywords : Option String := Option.none

/-- The field dictionary produced by Criteria.dict(): field names in
declaration order, None becoming JSON null, the string list becoming a JSON
array. -/
def Criteria.dict (c : Criteria) : List (String × PyVal) :=
  [("location", (c.location.map PyVal.str).getD PyVal.none),
   ("min_price", (c.min_price.map PyVal.int).getD PyVal.none),
   ("max_price", (c.max_price.map PyVal.int).getD PyVal.none),
   ("beds_min", (c.beds_min.map PyVal.int).getD PyVal.none),
   ("baths_min", (c.baths_min.map PyVal.int).getD PyVal.none),
   ("property_types",
     ((c.property_types.map fun l => PyVal.list (l.map PyVal.str)).getD PyVal.none)),
   ("keywords", (c.keywords.map PyVal.str).getD PyVal.none)]

/-- The AgentRequest pydantic model for the inbound body, with the defaults
the source declares; an omitted conversation_id parses to "listing-run" and
an omitted limit parses to 8. -/
structure AgentRequest where
  conversation_id : Option String := some "listing-run"
  limit : Option Int := some 8
  criteria : Criteria

/-- Python str() applied to an Optional int, as an f-string interpolation
performs: None renders as the four letters None, an int as its decimal. -/
def pyStrOptInt : Option Int → String
  | Option.none => "None"
  | some n => toString n

/-- runs_url_for from the source: route to the workflows runs path for a
wf_ prefix, to the agents runs path for an agt_ prefix, and to the agents
runs path again as the default for everything else. -/
def runs_url_for (base identifier : String) : String :=
  if pyStartswith identifier "wf_" then base ++ "/workflows/" ++ identifier ++ "/runs"
  else if pyStartswith identifier "agt_" then base ++ "/agents/" ++ identifier ++ "/runs"
  else base ++ "/agents/" ++ identifier ++ "/runs"

/-- build_openai_headers from the source: bearer authorization, content
type, the beta opt-in marker, then the optional project and organization
headers when those variables are nonempty. -/
def build_openai_headers (cfg : Config) : List (String × String) :=
  [("Authorization", "Bearer " ++ cfg.OPENAI_API_KEY),
   ("Content-Type", "application/json"),
   ("OpenAI-Beta", "agents=v1,workflows=v1")] ++
  (if cfg.OPENAI_PROJECT.isEmpty then [] else [("OpenAI-Project", cfg.OPENAI_PROJECT)]) ++
  (if cfg.OPENAI_ORG.isEmpty then [] else [("OpenAI-Organization", cfg.OPENAI_ORG)])

/-- The instruction text built in run_listings_agent: the f-string with the
limit interpolated by str() and the criteria dict serialized by json.dumps
with ensure_ascii set to False. -/
def query_text (payload : AgentRequest) : String :=
  "Find up to " ++ pyStrOptInt payload.limit ++
    " Québec real-estate listings based on: " ++
    PyVal.dumps (PyVal.dict (Criteria.dict payload.criteria))

/-- The outbound request run_listings_agent assembles: resolved URL, header
set, and the JSON body fields input_as_text and input_variables. -/
structure UpstreamRequest where
  url : String
  headers : List (String × String)
  input_as_text : String
  input_variables : List (String × PyVal)

/-- What requests.post followed by resp.json() can observe: either the call
raises (network failure, timeout), or a response arrives with a status
code, a raw body text, and a body-decoding outcome consulted only on
success statuses. -/
inductive UpstreamOutcome where
  | raised (msg : String) : UpstreamOutcome
  | response (status : Nat) (text : String) (decoded : Except String PyVal) : UpstreamOutcome

/-- The relay's answer to its own caller: an HTTPException carrying a
status and detail, or the success JSON with conversation_id, echoed
criteria and the opaque upstream payload. -/
inductive RelayResult where
  | error (status : Nat) (detail : String) : RelayResult
  | success (conversation_id : Option String) (criteria : List (String × PyVal))
      (agent_output : PyVal) : RelayResult

/-- Python truthiness of the optional x-api-key header value: an absent
header and an empty-string header are both falsy. -/
def header_value_falsy : Option String → Bool
  | Option.none => true
  | some s => s.isEmpty

/-- The access-gate test in run_listings_agent: with a nonempty
PUBLIC_CALLER_KEY the call is rejected when the provided header is falsy or
differs from the key; with an empty key the gate never rejects. -/
def gate_rejects (key : String) (provided : Option String) : Bool :=
  if key.isEmpty then false
  else header_value_falsy provided || provided != some key

/-- The upstream request run_listings_agent constructs for a given
configuration and inbound payload. -/
def upstream_request (cfg : Config) (payload : AgentRequest) : UpstreamRequest :=
  { url := runs_url_for cfg.OPENAI_BASE cfg.LISTINGS_AGENT_ID
    headers := build_openai_headers cfg
    input_as_text := query_text payload
    input_variables := Criteria.dict payload.criteria }

/-- The try/except block around the upstream call: a raised call maps to a
500 with the cause appended to a fixed message; a non-ok status (ok in the
requests library means below 400) re-raises the upstream status with the
raw body text as detail; an ok status returns the wrapped success JSON,
unless body decoding raises, which the generic handler also maps to 500. -/
def relay_dispatch (payload : AgentRequest) (outcome : UpstreamOutcome) : RelayResult :=
  match outcome with
  | UpstreamOutcome.raised msg =>
      RelayResult.error 500 ("Agent request failed: " ++ msg)
  | UpstreamOutcome.response status text decoded =>
      if status < 400 then
        match decoded with
        | Except.ok data =>
            RelayResult.success payload.conversation_id (Criteria.dict payload.criteria) data
        | Except.error msg =>
            RelayResult.error 500 ("Agent request failed: " ++ msg)
      else RelayResult.error status text

/-- run_listings_agent from the source, as a function of the configuration,
the inbound x-api-key header, the parsed body and an upstream oracle.  It
returns the relay result together with the list of upstream requests
issued, so that theorems can speak about whether the upstream was called.
The gate runs first, then the require_env checks in source order, then the
single dispatch. -/
def run_listings_agent (cfg : Config) (xApiKey : Option String)
    (payload : AgentRequest) (upstream : UpstreamRequest → UpstreamOutcome) :
    RelayResult × List UpstreamRequest :=
  if gate_rejects cfg.PUBLIC_CALLER_KEY xApiKey then
    (RelayResult.error 401 "Invalid or missing x-api-key", [])
  else if cfg.OPENAI_API_KEY.isEmpty then
    (RelayResult.error 500 "OPENAI_API_KEY is not set", [])
  else if cfg.LISTINGS_AGENT_ID.isEmpty then
    (RelayResult.error 500 "LISTINGS_AGENT_ID is not set", [])
  else
    (relay_dispatch payload (upstream (upstream_request cfg payload)),
     [upstream_request cfg payload])

/-- The diagnostic snapshot returned by GET /debug/config. -/
structure DebugConfig where
  api_version : String
  id_first3 : Option String
  openai_runs_url : Option String
  has_openai_key : Bool
  has_project_header : Bool
  has_org_header : Bool

/-- debug_config from the source: the fixed version string, the first three
characters of the target identifier (None when the identifier is unset),
the resolved runs URL (None when the identifier is unset), and booleans for
whether the API key, project and organization variables are set. -/
def debug_config (cfg : Config) : DebugConfig :=
  { api_version := "1.3.0"
    id_first3 :=
      if cfg.LISTINGS_AGENT_ID.isEmpty then Option.none
      else some (String.mk (cfg.LISTINGS_AGENT_ID.data.take 3))
    openai_runs_url :=
      if cfg.LISTINGS_AGENT_ID.isEmpty then Option.none
      else some (runs_url_for cfg.OPENAI_BASE cfg.LISTINGS_AGENT_ID)
    has_openai_key := !cfg.OPENAI_API_KEY.isEmpty
    has_project_header := !cfg.OPENAI_PROJECT.isEmpty
    has_org_header := !cfg.OPENAI_ORG.isEmpty }

/-! Concrete fixtures used by witness theorems. -/

/-- A configuration with no caller secret configured and both required
variables set. -/
def cfgOpen : Config :=
  { OPENAI_API_KEY := "sk-test-123"
    LISTINGS_AGENT_ID := "agt_demo"
    PUBLIC_CALLER_KEY := ""
    OPENAI_BASE := "https://api.openai.com/v1"
    OPENAI_PROJECT := ""
    OPENAI_ORG := "" }

/-- The open configuration with a caller secret configured. -/
def cfgLocked : Config := { cfgOpen with PUBLIC_CALLER_KEY := "caller-secret" }

/-- The criteria object from the spec's prompt-construction property. -/
def exampleCriteria : Criteria :=
  { location := some "Quebec City"
    min_price := some 200000
    max_price := some 500000
    beds_min := some 2 }

/-- A request built from the example criteria alone, every other field
taking its declared default. -/
def exampleRequest : AgentRequest := { criteria := exampleCriteria }

/-- An upstream oracle answering every request with a 200 and a decodable
body. -/
def upOk : UpstreamRequest → UpstreamOutcome :=
  fun _ => UpstreamOutcome.response 200 "raw" (Except.ok (PyVal.str "listings"))

/-- An upstream oracle answering every request with a 404 and the not-found
body from the spec's passthrough property. -/
def up404 : UpstreamRequest → UpstreamOutcome :=
  fun _ =>
    UpstreamOutcome.response 404 "\x7b\"error\":\"not found\"\x7d"
      (Except.error "not decoded")

/-- An upstream oracle on which every request raises, as a timeout does. -/
def upRaised : UpstreamRequest → UpstreamOutcome :=
  fun _ => UpstreamOutcome.raised "ReadTimeout"

/-! Theorems. -/

/-- Claim C1: runs_url_for routes every identifier with the wf_ prefix to a
URL containing a workflows segment and the identifier itself, and every
other identifier (agt_ or anything else) to a URL containing an agents
segment and the identifier itself; as a Lean function into String it is
total and yields exactly one URL per input, with no error case. -/
theorem runs_url_for_prefix_routing (base id : String) :
    (pyStartswith id "wf_" = true →
      strContains (runs_url_for base id) "workflows" ∧
        strContains (runs_url_for base id) id) ∧
    (pyStartswith id "wf_" = false →
      strContains (runs_url_for base id) "agents" ∧
        strContains (runs_url_for base id) id) := by
  constructor
  · intro h
    constructor
    · refine ⟨base.data ++ "/".data, "/".data ++ id.data ++ "/runs".data, ?_⟩
      simp [runs_url_for, h, List.append_assoc]
    · refine ⟨base.data ++ "/workflows/".data, "/runs".data, ?_⟩
      simp [runs_url_for, h, List.append_assoc]
  · intro h
    constructor
    · refine ⟨base.data ++ "/".data, "/".data ++ id.data ++ "/runs".data, ?_⟩
      by_cases hagt : pyStartswith id "agt_" = true <;>
        simp [runs_url_for, h, hagt, List.append_assoc]
    · refine ⟨base.data ++ "/agents/".data, "/runs".data, ?_⟩
      by_cases hagt : pyStartswith id "agt_" = true <;>
        simp [runs_url_for, h, hagt, List.append_assoc]

/-- Witness for C1 at a workflow identifier and at an agent identifier. -/
theorem runs_url_for_prefix_routing_witness :
    (strContains (runs_url_for "https://api.openai.com/v1" "wf_w1") "workflows" ∧
      strContains (runs_url_for "https://api.openai.com/v1" "wf_w1") "wf_w1") ∧
    (strContains (runs_url_for "https://api.openai.com/v1" "agt_a1") "agents" ∧
      strContains (runs_url_for "https://api.openai.com/v1" "agt_a1") "agt_a1") :=
  ⟨(runs_url_for_prefix_routing "https://api.openai.com/v1" "wf_w1").1 (by decide),
   (runs_url_for_prefix_routing "https://api.openai.com/v1" "agt_a1").2 (by decide)⟩

/-- The two-branch resolver written from the spec's contract: workflows
path for the wf_ prefix, agents path for everything else. -/
def runs_url_for_spec (base identifier : String) : String :=
  if pyStartswith identifier "wf_" then base ++ "/workflows/" ++ identifier ++ "/runs"
  else base ++ "/agents/" ++ identifier ++ "/runs"

/-- Claim C10: the explicit agt_ branch of runs_url_for is redundant; the
source resolver agrees with the simpler two-branch resolver on every
input. -/
theorem runs_url_for_agt_branch_redundant (base id : String) :
    runs_url_for base id = runs_url_for_spec base id := by
  unfold runs_url_for runs_url_for_spec
  by_cases hwf : pyStartswith id "wf_" = true <;>
    by_cases hagt : pyStartswith id "agt_" = true <;>
      simp [hwf, hagt]

/-- Helper shared by the success-path claims: whenever the handler answers
with a success value, the echoed criteria are the dict of the inbound
criteria and exactly one upstream request, the assembled one, was
issued. -/
theorem run_success_inv (cfg : Config) (xk : Option String) (p : AgentRequest)
    (up : UpstreamRequest → UpstreamOutcome) (cid : Option String)
    (crit : List (String × PyVal)) (out : PyVal)
    (h : (run_listings_agent cfg xk p up).1 = RelayResult.success cid crit out) :
    crit = Criteria.dict p.criteria ∧
      (run_listings_agent cfg xk p up).2 = [upstream_request cfg p] := by
  by_cases h1 : gate_rejects cfg.PUBLIC_CALLER_KEY xk = true
  · simp [run_listings_agent, h1] at h
  · by_cases h2 : cfg.OPENAI_API_KEY.isEmpty = true
    · simp [run_listings_agent, h1, h2] at h
    · by_cases h3 : cfg.LISTINGS_AGENT_ID.isEmpty = true
      · simp [run_listings_agent, h1, h2, h3] at h
      · have heq : run_listings_agent cfg xk p up =
            (relay_dispatch p (up (upstream_request cfg p)), [upstream_request cfg p]) := by
          simp [run_listings_agent, h1, h2, h3]
        rw [heq] at h ⊢
        refine ⟨?_, rfl⟩
        unfold relay_dispatch at h
        split at h
        · simp at h
        · split at h
          · split at h
            · injection h with hc1 hc2 hc3
              exact hc2.symm
            · simp at h
          · simp at h

/-- Claim C2: on every run of the listings handler that answers with a
success value, the criteria field of the answer equals the dict rendering
of the inbound request's criteria — the echo invariant. -/
theorem criteria_echo (cfg : Config) (xk : Option String) (p : AgentRequest)
    (up : UpstreamRequest → UpstreamOutcome) (cid : Option String)
    (crit : List (String × PyVal)) (out : PyVal)
    (h : (run_listings_agent cfg xk p up).1 = RelayResult.success cid crit out) :
    crit = Criteria.dict p.criteria :=
  (run_success_inv cfg xk p up cid crit out h).1

/-- Witness for C2: a concrete successful run echoes the example criteria. -/
theorem criteria_echo_witness :
    (run_listings_agent cfgOpen Option.none exampleRequest upOk).1 =
        RelayResult.success (some "listing-run") (Criteria.dict exampleCriteria)
          (PyVal.str "listings") ∧
      Criteria.dict exampleCriteria = Criteria.dict exampleRequest.criteria :=
  ⟨rfl, criteria_echo cfgOpen Option.none exampleRequest upOk (some "listing-run")
    (Criteria.dict exampleCriteria) (PyVal.str "listings") rfl⟩

/-- Claim C9: on every successful run, the single upstream request that was
issued carries in input_variables the very value returned as the response's
criteria field — both are the dict rendering of the request's criteria. -/
theorem upstream_vars_match_response_criteria (cfg : Config) (xk : Option String)
    (p : AgentRequest) (up : UpstreamRequest → UpstreamOutcome) (cid : Option String)
    (crit : List (String × PyVal)) (out : PyVal)
    (h : (run_listings_agent cfg xk p up).1 = RelayResult.success cid crit out) :
    (run_listings_agent cfg xk p up).2 = [upstream_request cfg p] ∧
      (upstream_request cfg p).input_variables = crit := by
  obtain ⟨h1, h2⟩ := run_success_inv cfg xk p up cid crit out h
  refine ⟨h2, ?_⟩
  rw [h1]
  rfl

/-- Witness for C9 at a concrete successful run. -/
theorem upstream_vars_match_response_criteria_witness :
    (run_listings_agent cfgOpen Option.none exampleRequest upOk).2 =
        [upstream_request cfgOpen exampleRequest] ∧
      (upstream_request cfgOpen exampleRequest).input_variables =
        Criteria.dict exampleCriteria :=
  upstream_vars_match_response_criteria cfgOpen Option.none exampleRequest upOk
    (some "listing-run") (Criteria.dict exampleCriteria) (PyVal.str "listings") rfl

/-- Claim C4: with a caller secret configured, every call whose x-api-key
header is absent, empty or different from the secret is answered 401 with
no upstream request issued — for every configuration and every upstream
oracle, so the rejection precedes the environment checks and the request
construction. -/
theorem gate_blocks_before_upstream (cfg : Config) (xk : Option String)
    (p : AgentRequest) (up : UpstreamRequest → UpstreamOutcome)
    (hkey : cfg.PUBLIC_CALLER_KEY.isEmpty = false)
    (hbad : header_value_falsy xk = true ∨ xk ≠ some cfg.PUBLIC_CALLER_KEY) :
    run_listings_agent cfg xk p up =
      (RelayResult.error 401 "Invalid or missing x-api-key", []) := by
  have hg : gate_rejects cfg.PUBLIC_CALLER_KEY xk = true := by
    rcases hbad with hb | hb
    · simp [gate_rejects, hkey, hb]
    · simp [gate_rejects, hkey, bne_iff_ne, hb]
  simp [run_listings_agent, hg]

/-- Witness for C4: a wrong key against the locked configuration yields 401
and an empty upstream call list. -/
theorem gate_blocks_before_upstream_witness :
    run_listings_agent cfgLocked (some "wrong-key") exampleRequest upOk =
      (RelayResult.error 401 "Invalid or missing x-api-key", []) :=
  gate_blocks_before_upstream cfgLocked (some "wrong-key") exampleRequest upOk
    (by decide) (Or.inr (by decide))

/-- Claim C7: with no caller secret configured the gate is a no-op: a call
with no x-api-key header passes it, and when the required environment
variables are present exactly one upstream request, the assembled one, is
issued — whatever the upstream then does. -/
theorem open_gate_reaches_upstream (cfg : Config) (p : AgentRequest)
    (up : UpstreamRequest → UpstreamOutcome)
    (hopen : cfg.PUBLIC_CALLER_KEY.isEmpty = true)
    (hkey : cfg.OPENAI_API_KEY.isEmpty = false)
    (hid : cfg.LISTINGS_AGENT_ID.isEmpty = false) :
    (run_listings_agent cfg Option.none p up).2 = [upstream_request cfg p] := by
  have hg : gate_rejects cfg.PUBLIC_CALLER_KEY Option.none = false := by
    simp [gate_rejects, hopen]
  simp [run_listings_agent, hg, hkey, hid]

/-- Witness for C7 at the open configuration. -/
theorem open_gate_reaches_upstream_witness :
    (run_listings_agent cfgOpen Option.none exampleRequest upOk).2 =
      [upstream_request cfgOpen exampleRequest] :=
  open_gate_reaches_upstream cfgOpen exampleRequest upOk (by decide) (by decide)
    (by decide)

/-- Claim C3: whenever the upstream answers with a non-success status (400
or above, the boundary the requests library's ok flag uses), the handler
raises exactly that status with the upstream's raw body text as the detail
it hands its caller — verbatim passthrough, single attempt. -/
theorem upstream_error_passthrough (cfg : Config) (xk : Option String)
    (p : AgentRequest) (up : UpstreamRequest → UpstreamOutcome) (status : Nat)
    (text : String) (decoded : Except String PyVal)
    (hgate : gate_rejects cfg.PUBLIC_CALLER_KEY xk = false)
    (hkey : cfg.OPENAI_API_KEY.isEmpty = false)
    (hid : cfg.LISTINGS_AGENT_ID.isEmpty = false)
    (hup : up (upstream_request cfg p) = UpstreamOutcome.response status text decoded)
    (hstatus : 400 ≤ status) :
    (run_listings_agent cfg xk p up).1 = RelayResult.error status text := by
  have hlt : ¬ status < 400 := Nat.not_lt.mpr hstatus
  simp [run_listings_agent, hgate, hkey, hid, relay_dispatch, hup, hlt]

/-- Witness for C3: a 404 with the not-found body passes through with the
exact status and body text. -/
theorem upstream_error_passthrough_witness :
    (run_listings_agent cfgOpen Option.none exampleRequest up404).1 =
      RelayResult.error 404 "\x7b\"error\":\"not found\"\x7d" :=
  upstream_error_passthrough cfgOpen Option.none exampleRequest up404 404
    "\x7b\"error\":\"not found\"\x7d" (Except.error "not decoded") (by decide)
    (by decide) (by decide) rfl (by decide)

/-- Claim C5: whenever the outbound call cannot complete — it raises
(network failure, timeout) or the success body fails to decode — the
handler answers with the fixed internal status 500 and a detail that is the
fixed failure message with the underlying cause's description appended, a
path distinct from the status-passthrough of upstream errors; the detail
contains the cause's description as a substring. -/
theorem transport_failure_internal_error (cfg : Config) (xk : Option String)
    (p : AgentRequest) (up : UpstreamRequest → UpstreamOutcome) (msg : String)
    (hgate : gate_rejects cfg.PUBLIC_CALLER_KEY xk = false)
    (hkey : cfg.OPENAI_API_KEY.isEmpty = false)
    (hid : cfg.LISTINGS_AGENT_ID.isEmpty = false)
    (hfail : up (upstream_request cfg p) = UpstreamOutcome.raised msg ∨
      ∃ status text, up (upstream_request cfg p) =
          UpstreamOutcome.response status text (Except.error msg) ∧ status < 400) :
    (run_listings_agent cfg xk p up).1 =
        RelayResult.error 500 ("Agent request failed: " ++ msg) ∧
      strContains ("Agent request failed: " ++ msg) msg := by
  refine ⟨?_, ⟨"Agent request failed: ".data, [], by simp⟩⟩
  rcases hfail with hup | ⟨status, text, hup, hlt⟩
  · simp [run_listings_agent, hgate, hkey, hid, relay_dispatch, hup]
  · simp [run_listings_agent, hgate, hkey, hid, relay_dispatch, hup, hlt]

/-- Witness for C5: a raising upstream call yields the 500 with the cause
appended. -/
theorem transport_failure_internal_error_witness :
    (run_listings_agent cfgOpen Option.none exampleRequest upRaised).1 =
        RelayResult.error 500 ("Agent request failed: " ++ "ReadTimeout") ∧
      strContains ("Agent request failed: " ++ "ReadTimeout") "ReadTimeout" :=
  transport_failure_internal_error cfgOpen Option.none exampleRequest upRaised
    "ReadTimeout" (by decide) (by decide) (by decide) (Or.inl rfl)

set_option maxRecDepth 40000 in
/-- Claim C6: the instruction text contains the requested limit as a
numeral and the serialized criteria dict for every request carrying a
limit; on the example request built from the spec's criteria it contains
the substrings Quebec City and 200000, and the omitted limit defaults
to 8. -/
theorem prompt_embeds_limit_and_criteria :
    (∀ (p : AgentRequest) (n : Int), p.limit = some n →
      strContains (query_text p) (toString n) ∧
        strContains (query_text p) (PyVal.dumps (PyVal.dict (Criteria.dict p.criteria)))) ∧
    (strContains (query_text exampleRequest) "Quebec City" ∧
      strContains (query_text exampleRequest) "200000") ∧
    exampleRequest.limit = some 8 := by
  refine ⟨?_, ⟨by decide, by decide⟩, rfl⟩
  intro p n hn
  constructor
  · refine ⟨"Find up to ".data,
      (" Québec real-estate listings based on: " ++
        PyVal.dumps (PyVal.dict (Criteria.dict p.criteria))).data, ?_⟩
    simp [query_text, hn, pyStrOptInt, List.append_assoc]
  · refine ⟨("Find up to " ++ pyStrOptInt p.limit ++
      " Québec real-estate listings based on: ").data, [], ?_⟩
    simp [query_text, List.append_assoc]

/-- Witness for C6: the general containment instantiated on the example
request at its default limit. -/
theorem prompt_embeds_limit_and_criteria_witness :
    strContains (query_text exampleRequest) (toString (8 : Int)) ∧
      strContains (query_text exampleRequest)
        (PyVal.dumps (PyVal.dict (Criteria.dict exampleRequest.criteria))) :=
  prompt_embeds_limit_and_criteria.1 exampleRequest 8 rfl

/-- Claim C8: the debug snapshot depends only on the target identifier, the
base URL and the set/unset booleans of the optional credentials; two
configurations agreeing on those — with arbitrary, even differing, API
keys, caller secrets, project and organization values — produce identical
snapshots, so no full secret value can flow into the response. -/
theorem debug_config_reveals_no_secrets (cfg1 cfg2 : Config)
    (hid : cfg1.LISTINGS_AGENT_ID = cfg2.LISTINGS_AGENT_ID)
    (hbase : cfg1.OPENAI_BASE = cfg2.OPENAI_BASE)
    (hkey : cfg1.OPENAI_API_KEY.isEmpty = cfg2.OPENAI_API_KEY.isEmpty)
    (hproj : cfg1.OPENAI_PROJECT.isEmpty = cfg2.OPENAI_PROJECT.isEmpty)
    (horg : cfg1.OPENAI_ORG.isEmpty = cfg2.OPENAI_ORG.isEmpty) :
    debug_config cfg1 = debug_config cfg2 := by
  simp [debug_config, hid, hbase, hkey, hproj, horg]

/-- A configuration with one pair of secret values. -/
def cfgSecretA : Config :=
  { cfgOpen with OPENAI_API_KEY := "sk-alpha-111", PUBLIC_CALLER_KEY := "hush-1" }

/-- The same configuration with entirely different secret values. -/
def cfgSecretB : Config :=
  { cfgOpen with OPENAI_API_KEY := "sk-beta-22222", PUBLIC_CALLER_KEY := "other-secret" }

/-- Witness for C8: changing every secret value leaves the debug snapshot
unchanged. -/
theorem debug_config_reveals_no_secrets_witness :
    debug_config cfgSecretA = debug_config cfgSecretB :=
  debug_config_reveals_no_secrets cfgSecretA cfgSecretB rfl rfl rfl rfl rfl

end PropertyMatcher
